import Mathlib

/-!
Shallow embedding of the OpenGL rasterizer surface cache header
(src/video_core/renderer_opengl/gl_rasterizer_cache.h).

Machine integers (u32, u64, std::size_t, CacheAddr) are modelled as `Nat`;
none of the verified computations rely on wrap-around, and the one place
where unsigned wrap could occur (`GetCacheAddr() + GetMemorySize() - 1`
with size 0) is fenced off by an explicit `1 ≤ memSize` hypothesis.
-/

/-- Modelled from the spec: the pixel format enumeration lives outside src
(video_core/surface.h).  The spec needs an uncompressed color format
(scenario "uncompressed RGBA8"), a block-compressed format (glossary:
"Compression factor: divisor applied to linear dimensions for
block-compressed pixel formats") and a depth format. -/
inductive PixelFormat
  | ABGR8
  | DXT1
  | Z24S8
  deriving DecidableEq

/-- Modelled from the spec: VideoCore::Surface::GetCompressionFactor (not under
src).  Divisor applied to linear dimensions for block-compressed formats; 1
for uncompressed formats.  DXT1 blocks are 4x4 texels. -/
def GetCompressionFactor : PixelFormat → Nat
  | .DXT1 => 4
  | _ => 1

/-- Modelled from the spec: VideoCore::Surface::GetBytesPerPixel (not under
src).  Bytes per texel, or per block for block-compressed formats
(a DXT1 block is 64 bits = 8 bytes). -/
def GetBytesPerPixel : PixelFormat → Nat
  | .ABGR8 => 4
  | .DXT1 => 8
  | .Z24S8 => 4

/-- Modelled from the spec: VideoCore::Surface::GetDefaultBlockHeight (not
under src).  Rows covered by one format block, used by the auto block sizing
rule of spec section 4.1; 4 rows for block-compressed formats, 1 otherwise. -/
def GetDefaultBlockHeight : PixelFormat → Nat
  | .DXT1 => 4
  | _ => 1

/-- Modelled from the spec: the component type enumeration is external
(video_core/surface.h); only equality on it matters here, so it is an
opaque numeric tag. -/
abbrev ComponentType := Nat

/-- Modelled from the spec: the surface type enumeration (color/depth class of
the format) is external (video_core/surface.h); opaque numeric tag. -/
abbrev SurfaceType := Nat

/-- Modelled from the spec: the dimensionality class enumeration
(1D/2D/3D/array/cube variants) is external (video_core/surface.h); opaque
numeric tag. -/
abbrev SurfaceTarget := Nat

/-- SurfaceParams::SurfaceClass (gl_rasterizer_cache.h:40). -/
inductive SurfaceClass
  | Uploaded
  | RenderTarget
  | DepthBuffer
  | Copy
  deriving DecidableEq

/-- Render-target specific parameters of SurfaceParams
(gl_rasterizer_cache.h:317, the anonymous struct member `rt`). -/
structure RTConfig where
  index : Nat
  array_mode : Nat
  volume : Nat
  layer_stride : Nat
  base_layer : Nat
  deriving DecidableEq

/-- The stored fields of struct SurfaceParams (gl_rasterizer_cache.h:291-323),
in source order. -/
structure SurfaceParams where
  is_tiled : Bool
  block_width : Nat
  block_height : Nat
  block_depth : Nat
  tile_width_spacing : Nat
  pixel_format : PixelFormat
  component_type : ComponentType
  type : SurfaceType
  width : Nat
  height : Nat
  depth : Nat
  unaligned_height : Nat
  pitch : Nat
  target : SurfaceTarget
  identity : SurfaceClass
  max_mip_level : Nat
  is_layered : Bool
  is_array : Bool
  srgb_conversion : Bool
  host_ptr : Nat
  gpu_addr : Nat
  size_in_bytes : Nat
  size_in_bytes_gl : Nat
  rt : RTConfig
  deriving DecidableEq

/-- Common::AlignUp from common/alignment.h (external to src): round `v` up to
the next multiple of `a`. -/
def alignUp (v a : Nat) : Nat := ((v + a - 1) / a) * a

/-- Modelled from the spec: Tegra::Texture::CalculateSize
(video_core/textures/decoders, not under src).  Linear layout is row-major
`width * height * depth * bytes_per_pixel`; tiled layout (spec glossary:
"a memory arrangement organizing pixel data into fixed-size blocks") rounds
each row up to whole 64-byte tiles, the height up to whole blocks of
`8 * block_height` rows, and the depth up to whole `block_depth` slices. -/
def CalculateSize (tiled : Bool) (bytes_per_pixel w h d bh bd : Nat) : Nat :=
  if tiled then
    alignUp (w * bytes_per_pixel) 64 * alignUp h (8 * bh) * alignUp d bd
  else
    w * h * d * bytes_per_pixel

namespace SurfaceParams

/-- SurfaceParams::SizeInBytesRaw (gl_rasterizer_cache.h:78): the total size
of the surface in bytes, adjusted for compression (the intermediate
CalculateSize result is divided by compression_factor squared, as height and
width are both factored by the compression factor). -/
def SizeInBytesRaw (p : SurfaceParams) (ignore_tiled : Bool) : Nat :=
  let compression_factor := GetCompressionFactor p.pixel_format
  let bytes_per_pixel := GetBytesPerPixel p.pixel_format
  let uncompressed_size :=
    CalculateSize (if ignore_tiled then false else p.is_tiled) bytes_per_pixel
      p.width p.height p.depth p.block_height p.block_depth
  uncompressed_size / (compression_factor * compression_factor)

/-- SurfaceParams::MipWidth (gl_rasterizer_cache.h:153). -/
def MipWidth (p : SurfaceParams) (mip_level : Nat) : Nat :=
  max 1 (p.width >>> mip_level)

/-- SurfaceParams::MipHeight (gl_rasterizer_cache.h:161). -/
def MipHeight (p : SurfaceParams) (mip_level : Nat) : Nat :=
  max 1 (p.height >>> mip_level)

/-- SurfaceParams::MipDepth (gl_rasterizer_cache.h:165): layered surfaces keep
their full depth (the layers), otherwise the depth is mip-reduced. -/
def MipDepth (p : SurfaceParams) (mip_level : Nat) : Nat :=
  if p.is_layered then p.depth else max 1 (p.depth >>> mip_level)

end SurfaceParams

/-- The while loop of SurfaceParams::MipBlockHeight (gl_rasterizer_cache.h:178):
`while (bh > 1 && blocks_in_y <= bh * 4) bh >>= 1`. -/
def blockHeightLoop (blocks_in_y bh : Nat) : Nat :=
  if h : 1 < bh ∧ blocks_in_y ≤ bh * 4 then blockHeightLoop blocks_in_y (bh / 2)
  else bh
termination_by bh
decreasing_by omega

/-- The while loop of SurfaceParams::MipBlockDepth (gl_rasterizer_cache.h:195):
`while (bd > 1 && mip_depth * 2 <= bd) bd >>= 1`. -/
def blockDepthLoop (mip_depth bd : Nat) : Nat :=
  if h : 1 < bd ∧ mip_depth * 2 ≤ bd then blockDepthLoop mip_depth (bd / 2)
  else bd
termination_by bd
decreasing_by omega

namespace SurfaceParams

/-- SurfaceParams::MipBlockHeight (gl_rasterizer_cache.h:171): mip 0 returns
the stored block height; otherwise the auto block resizing algorithm starts
at 16 and halves. -/
def MipBlockHeight (p : SurfaceParams) (mip_level : Nat) : Nat :=
  if mip_level = 0 then p.block_height
  else
    let alt_height := p.MipHeight mip_level
    let h := GetDefaultBlockHeight p.pixel_format
    let blocks_in_y := (alt_height + h - 1) / h
    blockHeightLoop blocks_in_y 16

/-- SurfaceParams::MipBlockDepth (gl_rasterizer_cache.h:184): mip 0 returns
the stored block depth; layered surfaces use 1; otherwise the auto algorithm
starts at 32, halves, and clamps 32 down to 16 when the mip block height is
at least 4. -/
def MipBlockDepth (p : SurfaceParams) (mip_level : Nat) : Nat :=
  if mip_level = 0 then p.block_depth
  else if p.is_layered then 1
  else
    let mip_depth := p.MipDepth mip_level
    let bd := blockDepthLoop mip_depth 32
    if bd = 32 then
      if 4 ≤ p.MipBlockHeight mip_level then 16 else bd
    else bd

/-- SurfaceParams::IsCompatibleSurface (gl_rasterizer_cache.h:234): ties
pixel_format, type, width, height, target, depth and is_tiled; when tiled it
additionally ties block_height, block_depth and tile_width_spacing. -/
def IsCompatibleSurface (p other : SurfaceParams) : Bool :=
  if p.pixel_format = other.pixel_format ∧ p.type = other.type ∧
      p.width = other.width ∧ p.height = other.height ∧
      p.target = other.target ∧ p.depth = other.depth ∧
      p.is_tiled = other.is_tiled then
    if p.is_tiled = false then true
    else
      decide (p.block_height = other.block_height ∧
        p.block_depth = other.block_depth ∧
        p.tile_width_spacing = other.tile_width_spacing)
  else false

end SurfaceParams

/-- SurfaceReserveKey (gl_rasterizer_cache.h:335): hashable variation of
SurfaceParams used as a key in the surface reserve; its identity is the
wrapped state. -/
structure SurfaceReserveKey where
  state : SurfaceParams
  deriving DecidableEq

/-- SurfaceReserveKey::Create (gl_rasterizer_cache.h:336): copies the params
and value-initializes `identity` (first enumerator, Uploaded), `gpu_addr`
(0) and the `rt` struct (all zero). -/
def SurfaceReserveKey.Create (params : SurfaceParams) : SurfaceReserveKey :=
  ⟨{ params with
      identity := SurfaceClass.Uploaded
      gpu_addr := 0
      rt := ⟨0, 0, 0, 0, 0⟩ }⟩

/-!
State model of RasterizerCacheOpenGL (gl_rasterizer_cache.h:450-560), for the
parts the claims touch: the address-indexed store (the base class
RasterizerCache, an external primitive per spec section 6), the reinterpreted
and must_reload flags of CachedSurface, and the reinterpreted_surfaces
interval map.

A CachedSurface is identified by a numeric id; its cache address and memory
size (CachedSurface::GetCacheAddr / GetMemorySize) are immutable attributes.
The boost::icl::interval_map<CacheAddr, Surface> is modelled by its pointwise
semantics, a function from addresses to the entry mapped there: icl `insert`
adds the new mapping only on addresses not already mapped, and icl `erase` of
an interval unmaps every address of that interval.  A point query
(equal_range on a single-address interval, as in
CollideOnReinterpretedSurface) returns the entry mapped at that address,
since an interval_map keeps at most one mapping per point.
-/

/-- Identity and immutable address attributes of one CachedSurface. -/
structure SurfEntry where
  id : Nat
  cacheAddr : Nat
  memSize : Nat
  deriving DecidableEq

/-- Membership in the interval built by
RasterizerCacheOpenGL::GetReinterpretInterval (gl_rasterizer_cache.h:525):
`right_open(GetCacheAddr() + 1, GetCacheAddr() + GetMemorySize() - 1)`, i.e.
the addresses x with cacheAddr + 1 ≤ x < cacheAddr + memSize - 1. -/
def inReinterpretInterval (e : SurfEntry) (x : Nat) : Prop :=
  e.cacheAddr + 1 ≤ x ∧ x < e.cacheAddr + e.memSize - 1

instance (e : SurfEntry) (x : Nat) : Decidable (inReinterpretInterval e x) :=
  inferInstanceAs (Decidable (_ ∧ _))

/-- The mutable cache state the claims are about: membership in the
address-indexed store, the per-entry reinterpreted and must_reload flags, and
the pointwise contents of the reinterpreted_surfaces interval map. -/
structure CacheState where
  store : Nat → Bool
  reinterpreted : Nat → Bool
  must_reload : Nat → Bool
  tracker : Nat → Option Nat

/-- The initial state: empty store, empty interval map, and every
CachedSurface starts with `reinterpreted = false` and `must_reload = false`
(gl_rasterizer_cache.h:445-446). -/
def initState : CacheState :=
  { store := fun _ => false
    reinterpreted := fun _ => false
    must_reload := fun _ => false
    tracker := fun _ => none }

/-- CachedSurface::MarkReinterpreted (gl_rasterizer_cache.h:411): sets the
entry's reinterpreted flag to true. -/
def markReinterpreted (e : SurfEntry) (s : CacheState) : CacheState :=
  { s with reinterpreted := fun i => if i = e.id then true else s.reinterpreted i }

/-- CachedSurface::MarkForReload (gl_rasterizer_cache.h:419): sets the entry's
must_reload flag to the given value. -/
def markForReload (e : SurfEntry) (b : Bool) (s : CacheState) : CacheState :=
  { s with must_reload := fun i => if i = e.id then b else s.must_reload i }

/-- RasterizerCacheOpenGL::Register (gl_rasterizer_cache.h:548): delegates to
the external address-indexed store primitive, which registers the object
under its address range. -/
def registerSurface (e : SurfEntry) (s : CacheState) : CacheState :=
  { s with store := fun i => if i = e.id then true else s.store i }

/-- RasterizerCacheOpenGL::RegisterReinterpretSurface
(gl_rasterizer_cache.h:533): icl-inserts the entry's reinterpret interval
(filling only addresses not already mapped), then marks the entry
reinterpreted. -/
def registerReinterpretSurface (e : SurfEntry) (s : CacheState) : CacheState :=
  markReinterpreted e
    { s with
        tracker := fun x =>
          if inReinterpretInterval e x then some ((s.tracker x).getD e.id)
          else s.tracker x }

/-- RasterizerCacheOpenGL::CollideOnReinterpretedSurface
(gl_rasterizer_cache.h:539): returns the entry whose registered interval
contains the address, or nothing. -/
def collideOnReinterpretedSurface (s : CacheState) (addr : Nat) : Option Nat :=
  s.tracker addr

/-- RasterizerCacheOpenGL::Unregister (gl_rasterizer_cache.h:553): if the
object is flagged reinterpreted, icl-erase its reinterpret interval (unmapping
every address in it), then unregister the object from the address-indexed
store. -/
def unregisterSurface (e : SurfEntry) (s : CacheState) : CacheState :=
  let t :=
    if s.reinterpreted e.id = true then
      fun x => if inReinterpretInterval e x then none else s.tracker x
    else s.tracker
  { s with
      tracker := t
      store := fun i => if i = e.id then false else s.store i }

/-- One state-changing operation of the cache or of an entry. -/
inductive CacheOp
  | register (e : SurfEntry)
  | unregister (e : SurfEntry)
  | registerReinterpret (e : SurfEntry)
  | markReinterpret (e : SurfEntry)
  | markReload (e : SurfEntry) (b : Bool)

/-- Apply one operation to the state. -/
def applyOp (op : CacheOp) (s : CacheState) : CacheState :=
  match op with
  | .register e => registerSurface e s
  | .unregister e => unregisterSurface e s
  | .registerReinterpret e => registerReinterpretSurface e s
  | .markReinterpret e => markReinterpreted e s
  | .markReload e b => markForReload e b s

/-- Apply a sequence of operations, first operation first. -/
def applyOps (ops : List CacheOp) (s : CacheState) : CacheState :=
  ops.foldl (fun st op => applyOp op st) s

/-- A cache state is reachable when some operation sequence produces it from
the initial state. -/
def Reachable (s : CacheState) : Prop :=
  ∃ ops : List CacheOp, applyOps ops initState = s

/-!
Spec-side definitions, written from the specification's words, to be compared
against the source-side definitions above.
-/

/-- Compatibility as the spec words it: "pixel format, component type, width,
height, target, depth, and tiling flag all match, and additionally, only when
the descriptor is tiled, their block height, block depth, and tile width
spacing also match". -/
def specCompatible (p q : SurfaceParams) : Prop :=
  (p.pixel_format = q.pixel_format ∧ p.component_type = q.component_type ∧
    p.width = q.width ∧ p.height = q.height ∧ p.target = q.target ∧
    p.depth = q.depth ∧ p.is_tiled = q.is_tiled) ∧
  (p.is_tiled = true →
    p.block_height = q.block_height ∧ p.block_depth = q.block_depth ∧
      p.tile_width_spacing = q.tile_width_spacing)

instance (p q : SurfaceParams) : Decidable (specCompatible p q) :=
  inferInstanceAs (Decidable (_ ∧ _))

/-- Compatibility as amended to the code: the stored surface `type` field is
compared instead of the component type (which the code never examines). -/
def specCompatibleAmended (p q : SurfaceParams) : Prop :=
  (p.pixel_format = q.pixel_format ∧ p.type = q.type ∧ p.width = q.width ∧
    p.height = q.height ∧ p.target = q.target ∧ p.depth = q.depth ∧
    p.is_tiled = q.is_tiled) ∧
  (p.is_tiled = true →
    p.block_height = q.block_height ∧ p.block_depth = q.block_depth ∧
      p.tile_width_spacing = q.tile_width_spacing)

/-- Two descriptors agree on every field other than the classification
(`identity`), the guest address (`gpu_addr`) and the render-target struct
(`rt`) — i.e. they differ at most in those fields. -/
def AgreesOutsideReserveIgnoredFields (p q : SurfaceParams) : Prop :=
  p.is_tiled = q.is_tiled ∧ p.block_width = q.block_width ∧
  p.block_height = q.block_height ∧ p.block_depth = q.block_depth ∧
  p.tile_width_spacing = q.tile_width_spacing ∧
  p.pixel_format = q.pixel_format ∧ p.component_type = q.component_type ∧
  p.type = q.type ∧ p.width = q.width ∧ p.height = q.height ∧
  p.depth = q.depth ∧ p.unaligned_height = q.unaligned_height ∧
  p.pitch = q.pitch ∧ p.target = q.target ∧
  p.max_mip_level = q.max_mip_level ∧ p.is_layered = q.is_layered ∧
  p.is_array = q.is_array ∧ p.srgb_conversion = q.srgb_conversion ∧
  p.host_ptr = q.host_ptr ∧ p.size_in_bytes = q.size_in_bytes ∧
  p.size_in_bytes_gl = q.size_in_bytes_gl

instance (p q : SurfaceParams) : Decidable (AgreesOutsideReserveIgnoredFields p q) :=
  inferInstanceAs (Decidable (_ ∧ _))

/-- The claim's auto block-height selection: start the candidate at 16 and
halve it while it is greater than 1 and the number of blocks needed fits
within 4 times the candidate, stopping at 1. -/
def specHalveWhileFits (blocks_needed cand : Nat) : Nat :=
  if h : 1 < cand ∧ blocks_needed ≤ 4 * cand then
    specHalveWhileFits blocks_needed (cand / 2)
  else cand
termination_by cand
decreasing_by omega

/-- The claim's count of format-default-height blocks needed for the mip's
height: a ceiling division of the mip height by the format's default block
height. -/
def specBlocksNeeded (p : SurfaceParams) (m : Nat) : Nat :=
  (p.MipHeight m + GetDefaultBlockHeight p.pixel_format - 1) /
    GetDefaultBlockHeight p.pixel_format

/-- The claim's auto block-depth halving: halve the candidate while twice the
mip depth still fits within it (a candidate of 1 cannot be halved further). -/
def specHalveWhileTwiceDepthFits (mip_depth cand : Nat) : Nat :=
  if h : 2 * mip_depth ≤ cand ∧ 1 < cand then
    specHalveWhileTwiceDepthFits mip_depth (cand / 2)
  else cand
termination_by cand
decreasing_by omega

/-- The claim's auto block-depth selection for a non-layered mip: start at 32
and halve; when the candidate remains at the maximum of 32 and the mip block
height is at least 4, clamp the result down to 16. -/
def specAutoBlockDepth (p : SurfaceParams) (m : Nat) : Nat :=
  let bd := specHalveWhileTwiceDepthFits (p.MipDepth m) 32
  if bd = 32 ∧ 4 ≤ p.MipBlockHeight m then 16 else bd

/-!
Concrete sample inputs used by counterexamples and witnesses.
-/

/-- A concrete descriptor: the spec's scenario surface (256x256 uncompressed
RGBA8, uploaded classification, 256*256*4 bytes). -/
def sampleParams : SurfaceParams :=
  { is_tiled := false
    block_width := 1
    block_height := 16
    block_depth := 1
    tile_width_spacing := 1
    pixel_format := .ABGR8
    component_type := 0
    type := 0
    width := 256
    height := 256
    depth := 1
    unaligned_height := 256
    pitch := 0
    target := 1
    identity := .Uploaded
    max_mip_level := 1
    is_layered := false
    is_array := false
    srgb_conversion := false
    host_ptr := 4096
    gpu_addr := 4096
    size_in_bytes := 262144
    size_in_bytes_gl := 262144
    rt := ⟨0, 0, 0, 0, 0⟩ }

/-- A concrete tiled DXT1 descriptor (compression factor 4). -/
def sampleDxt1Params : SurfaceParams :=
  { sampleParams with
      is_tiled := true
      pixel_format := .DXT1
      width := 8
      height := 8
      block_height := 1 }

/-- A concrete entry: id 0, registered at cache address 0 with memory size
10. -/
def entryA : SurfEntry := ⟨0, 0, 10⟩

/-- A second concrete entry with the same address range as `entryA` but a
different identity: id 1, cache address 0, memory size 10. -/
def entryB : SurfEntry := ⟨1, 0, 10⟩

/-- The state after registering both entries in the store and then
reinterpret-registering first `entryA`, then `entryB` (whose interval is
already fully covered, so the icl insert maps nothing to it). -/
def overlapState : CacheState :=
  applyOps
    [.register entryA, .register entryB,
     .registerReinterpret entryA, .registerReinterpret entryB]
    initState

/-- One direction of the spec's tracker invariant: every address the interval
map sends to an entry belongs to an entry whose reinterpreted flag is set. -/
def TrackerMapsOnlyFlagged (s : CacheState) : Prop :=
  ∀ x i, s.tracker x = some i → s.reinterpreted i = true

/-!
Theorems.
-/

theorem blockHeightLoop_eq_spec (b : Nat) :
    ∀ cand, blockHeightLoop b cand = specHalveWhileFits b cand := by
  intro cand
  induction cand using Nat.strong_induction_on with
  | _ cand ih =>
    rw [blockHeightLoop, specHalveWhileFits]
    by_cases h : 1 < cand ∧ b ≤ cand * 4
    · rw [dif_pos h, dif_pos (by omega : 1 < cand ∧ b ≤ 4 * cand),
        ih (cand / 2) (by omega)]
    · rw [dif_neg h, dif_neg (by omega : ¬(1 < cand ∧ b ≤ 4 * cand))]

theorem blockDepthLoop_eq_spec (d : Nat) :
    ∀ cand, blockDepthLoop d cand = specHalveWhileTwiceDepthFits d cand := by
  intro cand
  induction cand using Nat.strong_induction_on with
  | _ cand ih =>
    rw [blockDepthLoop, specHalveWhileTwiceDepthFits]
    by_cases h : 1 < cand ∧ d * 2 ≤ cand
    · rw [dif_pos h, dif_pos (by omega : 2 * d ≤ cand ∧ 1 < cand),
        ih (cand / 2) (by omega)]
    · rw [dif_neg h, dif_neg (by omega : ¬(2 * d ≤ cand ∧ 1 < cand))]

/-- C1 counterexample: two descriptors that differ only in their component
type.  The code's IsCompatibleSurface never examines the component type and
reports them compatible, while the claim's matching condition requires the
component types to agree, so the claimed equivalence fails at this pair. -/
theorem c1_counterexample :
    SurfaceParams.IsCompatibleSurface sampleParams
        { sampleParams with component_type := 1 } = true ∧
      ¬ specCompatible sampleParams { sampleParams with component_type := 1 } := by
  decide

/-- C1 (amended): IsCompatibleSurface returns true iff pixel format, the
stored surface type field, width, height, target, depth and tiling flag all
match, and additionally, only when the descriptor is tiled, block height,
block depth and tile width spacing also match.  (The component type is never
compared.) -/
theorem c1_compatible_iff (p q : SurfaceParams) :
    SurfaceParams.IsCompatibleSurface p q = true ↔ specCompatibleAmended p q := by
  unfold SurfaceParams.IsCompatibleSurface specCompatibleAmended
  split_ifs with h1 h2 <;> simp_all

/-- C2: two descriptors that agree outside the classification, guest address
and render-target fields produce identical reserve keys. -/
theorem c2_reserve_key_ignores (p q : SurfaceParams)
    (h : AgreesOutsideReserveIgnoredFields p q) :
    SurfaceReserveKey.Create p = SurfaceReserveKey.Create q := by
  obtain ⟨h1, h2, h3, h4, h5, h6, h7, h8, h9, h10, h11, h12, h13, h14, h15,
    h16, h17, h18, h19, h20, h21⟩ := h
  cases p
  cases q
  simp_all [SurfaceReserveKey.Create]

/-- C2 witness: a concrete pair differing in classification, guest address and
render-target configuration gets the same reserve key. -/
theorem c2_reserve_key_ignores_witness :
    AgreesOutsideReserveIgnoredFields sampleParams
        { sampleParams with identity := .Copy, gpu_addr := 0, rt := ⟨1, 2, 3, 4, 5⟩ } ∧
      SurfaceReserveKey.Create sampleParams =
        SurfaceReserveKey.Create
          { sampleParams with identity := .Copy, gpu_addr := 0, rt := ⟨1, 2, 3, 4, 5⟩ } :=
  ⟨by decide, c2_reserve_key_ignores _ _ (by decide)⟩

/-- C3: the registered interval excludes the entry's own start address — an
address collides with the entry exactly when it lies strictly between the
cache address and cacheAddr + memSize - 1; in particular the entry's start
address is not in its own interval, and registering the entry does not change
what a collision query at the start address returns. -/
theorem c3_reinterpret_interval (e : SurfEntry) (s : CacheState) (x : Nat)
    (h : 1 ≤ e.memSize) :
    (inReinterpretInterval e x ↔
      e.cacheAddr < x ∧ x < e.cacheAddr + e.memSize - 1) ∧
    ¬ inReinterpretInterval e e.cacheAddr ∧
    collideOnReinterpretedSurface (registerReinterpretSurface e s) e.cacheAddr =
      collideOnReinterpretedSurface s e.cacheAddr := by
  refine ⟨?_, ?_, ?_⟩
  · unfold inReinterpretInterval
    omega
  · unfold inReinterpretInterval
    omega
  · unfold collideOnReinterpretedSurface registerReinterpretSurface markReinterpreted
    simp only
    rw [if_neg (by unfold inReinterpretInterval; omega)]

/-- C3 witness at a concrete entry, state and address. -/
theorem c3_reinterpret_interval_witness :
    1 ≤ entryA.memSize ∧
    ((inReinterpretInterval entryA 5 ↔
        entryA.cacheAddr < 5 ∧ 5 < entryA.cacheAddr + entryA.memSize - 1) ∧
      ¬ inReinterpretInterval entryA entryA.cacheAddr ∧
      collideOnReinterpretedSurface (registerReinterpretSurface entryA initState)
          entryA.cacheAddr =
        collideOnReinterpretedSurface initState entryA.cacheAddr) :=
  ⟨by decide, c3_reinterpret_interval entryA initState 5 (by decide)⟩

/-- C6 counterexample: for a tiled block-compressed descriptor (DXT1,
compression factor 4), SizeInBytesRaw divided by the squared compression
factor is NOT the layout size CalculateSize returns for the same dimensions —
SizeInBytesRaw is already that layout size divided by the squared factor,
and dividing again undershoots. -/
theorem c6_counterexample :
    sampleDxt1Params.is_tiled = true ∧
    SurfaceParams.SizeInBytesRaw sampleDxt1Params false /
        (GetCompressionFactor sampleDxt1Params.pixel_format *
          GetCompressionFactor sampleDxt1Params.pixel_format) ≠
      CalculateSize sampleDxt1Params.is_tiled
        (GetBytesPerPixel sampleDxt1Params.pixel_format)
        sampleDxt1Params.width sampleDxt1Params.height sampleDxt1Params.depth
        sampleDxt1Params.block_height sampleDxt1Params.block_depth := by
  decide

/-- C6 (amended): for every tiled descriptor, SizeInBytesRaw equals the
layout size computed for the same dimensions divided by the square of the
format's compression factor. -/
theorem c6_size_roundtrip (p : SurfaceParams) (h : p.is_tiled = true) :
    SurfaceParams.SizeInBytesRaw p false =
      CalculateSize true (GetBytesPerPixel p.pixel_format) p.width p.height
          p.depth p.block_height p.block_depth /
        (GetCompressionFactor p.pixel_format * GetCompressionFactor p.pixel_format) := by
  unfold SurfaceParams.SizeInBytesRaw
  simp [h]

/-- C6 witness at the concrete tiled DXT1 descriptor. -/
theorem c6_size_roundtrip_witness :
    sampleDxt1Params.is_tiled = true ∧
    SurfaceParams.SizeInBytesRaw sampleDxt1Params false =
      CalculateSize true (GetBytesPerPixel sampleDxt1Params.pixel_format)
          sampleDxt1Params.width sampleDxt1Params.height sampleDxt1Params.depth
          sampleDxt1Params.block_height sampleDxt1Params.block_depth /
        (GetCompressionFactor sampleDxt1Params.pixel_format *
          GetCompressionFactor sampleDxt1Params.pixel_format) :=
  ⟨by decide, c6_size_roundtrip sampleDxt1Params (by decide)⟩

/-- C7: for every surface descriptor and mip level m > 0, MipWidth is
max(1, width >> m), and MipDepth is the unshifted depth for layered surfaces
and max(1, depth >> m) otherwise. -/
theorem c7_mip_dimensions (p : SurfaceParams) (m : Nat) (h : 0 < m) :
    p.MipWidth m = max 1 (p.width >>> m) ∧
    p.MipDepth m = (if p.is_layered then p.depth else max 1 (p.depth >>> m)) :=
  ⟨rfl, rfl⟩

/-- C7 witness at the concrete sample descriptor and mip level 1. -/
theorem c7_mip_dimensions_witness :
    0 < 1 ∧
    (sampleParams.MipWidth 1 = max 1 (sampleParams.width >>> 1) ∧
      sampleParams.MipDepth 1 =
        (if sampleParams.is_layered then sampleParams.depth
          else max 1 (sampleParams.depth >>> 1))) :=
  ⟨by decide, c7_mip_dimensions sampleParams 1 (by decide)⟩

/-- C8: MipBlockHeight returns the stored block height at mip 0, and for
every higher mip level the candidate started at 16 and halved while greater
than 1 and while the number of format-default-height blocks needed for the
mip's height fits within 4 times the candidate. -/
theorem c8_mip_block_height (p : SurfaceParams) (m : Nat) :
    p.MipBlockHeight m =
      if m = 0 then p.block_height
      else specHalveWhileFits (specBlocksNeeded p m) 16 := by
  unfold SurfaceParams.MipBlockHeight specBlocksNeeded
  by_cases h : m = 0
  · simp [h]
  · simp only [if_neg h]
    exact blockHeightLoop_eq_spec _ 16

/-- C9: for every mip level m > 0, MipBlockDepth is 1 for layered surfaces,
and otherwise the candidate started at 32 and halved while twice the mip
depth fits, clamped down to 16 when it remains 32 and the mip block height is
at least 4. -/
theorem c9_mip_block_depth (p : SurfaceParams) (m : Nat) (h : 0 < m) :
    p.MipBlockDepth m = if p.is_layered then 1 else specAutoBlockDepth p m := by
  unfold SurfaceParams.MipBlockDepth specAutoBlockDepth
  rw [if_neg (by omega)]
  by_cases hl : p.is_layered
  · simp [hl]
  · simp only [hl, if_false, Bool.false_eq_true]
    rw [blockDepthLoop_eq_spec]
    by_cases h32 : specHalveWhileTwiceDepthFits (p.MipDepth m) 32 = 32
    · by_cases hbh : 4 ≤ p.MipBlockHeight m <;> simp [h32, hbh]
    · simp [h32]

/-- C9 witness at the concrete sample descriptor and mip level 1. -/
theorem c9_mip_block_depth_witness :
    0 < 1 ∧
    sampleParams.MipBlockDepth 1 =
      (if sampleParams.is_layered then 1 else specAutoBlockDepth sampleParams 1) :=
  ⟨by decide, c9_mip_block_depth sampleParams 1 (by decide)⟩

theorem trackerMapsOnlyFlagged_applyOp (op : CacheOp) (s : CacheState)
    (h : TrackerMapsOnlyFlagged s) : TrackerMapsOnlyFlagged (applyOp op s) := by
  cases op with
  | register e =>
    intro x i hx
    exact h x i hx
  | unregister e =>
    intro x i hx
    simp only [applyOp, unregisterSurface] at hx
    by_cases hf : s.reinterpreted e.id = true
    · simp only [hf, if_true] at hx
      by_cases hin : inReinterpretInterval e x
      · simp [hin] at hx
      · simp only [hin, if_neg, if_false] at hx
        exact h x i hx
    · simp only [hf, if_false] at hx
      exact h x i hx
  | registerReinterpret e =>
    intro x i hx
    simp only [applyOp, registerReinterpretSurface, markReinterpreted] at hx ⊢
    by_cases hin : inReinterpretInterval e x
    · simp only [hin, if_true, Option.some.injEq] at hx
      subst hx
      cases ht : s.tracker x with
      | none => simp [ht]
      | some v =>
        have hv := h x v ht
        by_cases hve : v = e.id <;> simp [ht, hve, hv]
    · simp only [hin, if_false] at hx
      have := h x i hx
      by_cases hv : i = e.id <;> simp [hv, this]
  | markReinterpret e =>
    intro x i hx
    simp only [applyOp, markReinterpreted] at hx ⊢
    have := h x i hx
    by_cases hv : i = e.id <;> simp [hv, this]
  | markReload e b =>
    intro x i hx
    exact h x i hx

theorem trackerMapsOnlyFlagged_applyOps (ops : List CacheOp) (s : CacheState)
    (h : TrackerMapsOnlyFlagged s) : TrackerMapsOnlyFlagged (applyOps ops s) := by
  induction ops generalizing s with
  | nil => exact h
  | cons op rest ih =>
    exact ih (applyOp op s) (trackerMapsOnlyFlagged_applyOp op s h)

/-- C4 counterexample: a reachable state (register two entries over the same
address range, then reinterpret-register both) in which the second entry is
in the store with its reinterpreted flag set, yet no address of the interval
map is mapped to it — the icl insert filled no gap because the first entry's
interval already covered the range.  The claimed "interval exists iff flag
set" equivalence therefore fails at this state. -/
theorem c4_counterexample :
    Reachable overlapState ∧
    overlapState.store entryB.id = true ∧
    overlapState.reinterpreted entryB.id = true ∧
    ∀ x, overlapState.tracker x ≠ some entryB.id := by
  refine ⟨⟨_, rfl⟩, rfl, rfl, ?_⟩
  intro x
  simp only [overlapState, applyOps, List.foldl, applyOp,
    registerReinterpretSurface, registerSurface, markReinterpreted, initState,
    inReinterpretInterval, entryA, entryB]
  split_ifs <;> simp

/-- C4 (amended): at every reachable cache state, every address the interval
map sends to an entry belongs to an entry whose reinterpreted flag is set
(the converse can fail when registered intervals overlap, since the icl
insert fills only uncovered gaps); RegisterReinterpretSurface sets the flag
when inserting the interval, and Unregister on a flagged entry unmaps the
entry's whole interval range together with removing the entry from the
address-indexed store. -/
theorem c4_tracker_invariant (s : CacheState) (h : Reachable s) :
    TrackerMapsOnlyFlagged s ∧
    (∀ e : SurfEntry, (registerReinterpretSurface e s).reinterpreted e.id = true) ∧
    (∀ e : SurfEntry, s.reinterpreted e.id = true →
      (∀ x, inReinterpretInterval e x → (unregisterSurface e s).tracker x = none) ∧
      (unregisterSurface e s).store e.id = false) := by
  obtain ⟨ops, rfl⟩ := h
  refine ⟨?_, ?_, ?_⟩
  · refine trackerMapsOnlyFlagged_applyOps ops initState ?_
    intro x i hx
    simp [initState] at hx
  · intro e
    simp [registerReinterpretSurface, markReinterpreted]
  · intro e he
    constructor
    · intro x hx
      simp [unregisterSurface, he, hx]
    · simp [unregisterSurface]

/-- C4 witness: the amended invariant instantiated at the concrete reachable
overlap state. -/
theorem c4_tracker_invariant_witness :
    Reachable overlapState ∧
    (TrackerMapsOnlyFlagged overlapState ∧
      (∀ e : SurfEntry,
        (registerReinterpretSurface e overlapState).reinterpreted e.id = true) ∧
      (∀ e : SurfEntry, overlapState.reinterpreted e.id = true →
        (∀ x, inReinterpretInterval e x →
          (unregisterSurface e overlapState).tracker x = none) ∧
        (unregisterSurface e overlapState).store e.id = false)) :=
  ⟨⟨_, rfl⟩, c4_tracker_invariant overlapState ⟨_, rfl⟩⟩

/-- C5: reinterpret-registering an entry and then immediately unregistering
it leaves the interval map with no address referencing that entry and leaves
the address-indexed store without it (given the map did not already reference
the entry beforehand); moreover unregistering any entry flagged reinterpreted
unmaps its whole interval range in the same operation that removes it from
the store. -/
theorem c5_register_then_unregister (s : CacheState) (e : SurfEntry)
    (h : ∀ x, s.tracker x ≠ some e.id) :
    (∀ x, (unregisterSurface e (registerReinterpretSurface e s)).tracker x ≠
      some e.id) ∧
    (unregisterSurface e (registerReinterpretSurface e s)).store e.id = false ∧
    (∀ t : CacheState, t.reinterpreted e.id = true →
      ∀ x, inReinterpretInterval e x → (unregisterSurface e t).tracker x = none) := by
  refine ⟨?_, ?_, ?_⟩
  · intro x
    by_cases hx : inReinterpretInterval e x <;>
      simp [unregisterSurface, registerReinterpretSurface, markReinterpreted,
        hx, h x]
  · simp [unregisterSurface]
  · intro t ht x hx
    simp [unregisterSurface, ht, hx]

/-- C5 witness: the round trip at a concrete entry from the initial state. -/
theorem c5_register_then_unregister_witness :
    (∀ x, initState.tracker x ≠ some entryA.id) ∧
    ((∀ x, (unregisterSurface entryA
        (registerReinterpretSurface entryA initState)).tracker x ≠
      some entryA.id) ∧
    (unregisterSurface entryA
        (registerReinterpretSurface entryA initState)).store entryA.id = false ∧
    (∀ t : CacheState, t.reinterpreted entryA.id = true →
      ∀ x, inReinterpretInterval entryA x →
        (unregisterSurface entryA t).tracker x = none)) :=
  ⟨by intro x; simp [initState],
    c5_register_then_unregister initState entryA (by intro x; simp [initState])⟩

/-- C10: once an entry's reinterpreted flag is set, no sequence of cache or
entry operations — including unregistering the entry from the store — ever
clears it. -/
theorem c10_reinterpreted_persists (ops : List CacheOp) (s : CacheState)
    (i : Nat) (h : s.reinterpreted i = true) :
    (applyOps ops s).reinterpreted i = true := by
  induction ops generalizing s with
  | nil => exact h
  | cons op rest ih =>
    refine ih (applyOp op s) ?_
    cases op with
    | register e => exact h
    | unregister e => exact h
    | registerReinterpret e =>
      simp only [applyOp, registerReinterpretSurface, markReinterpreted]
      by_cases hv : i = e.id <;> simp [hv, h]
    | markReinterpret e =>
      simp only [applyOp, markReinterpreted]
      by_cases hv : i = e.id <;> simp [hv, h]
    | markReload e b => exact h

/-- C10 witness: a concrete entry, flagged by a reinterpret registration,
stays flagged after being unregistered from the store. -/
theorem c10_reinterpreted_persists_witness :
    (registerReinterpretSurface entryA initState).reinterpreted entryA.id = true ∧
    (applyOps [.unregister entryA]
        (registerReinterpretSurface entryA initState)).reinterpreted entryA.id =
      true :=
  ⟨by decide,
    c10_reinterpreted_persists [.unregister entryA]
      (registerReinterpretSurface entryA initState) entryA.id (by decide)⟩
